import Mathlib

/-!
Verification of the extcap command-mode dispatcher (`application.go`,
`errors.go`).  The dispatcher `mainAction`, the flag-schema construction in
`App.Run` and the default pipe opener `openPipe` are embedded shallowly;
the flag-parsing library (urfave/cli) is out of scope and appears only as
an abstract parsed context `Ctx`.  The rendering methods of
`CaptureInterface`, `DLT`, `ConfigOption` and `VersionInfo` live in a
repository file that is not part of the sources here; they are modelled
from the spec's wire-format grammar and marked as such.
-/

namespace Extcap

/-- A parsed value of a command-line flag (Go `interface{}` as returned by
`ctx.Value`): string, boolean or integer flags exist. -/
inductive Value where
  | str (s : String)
  | bool (b : Bool)
  | int (i : Int)
deriving DecidableEq, Repr

/-- A Go error value: `errors.New` gives a plain message, and
`fmt.Errorf("...: %w", err)` wraps an inner error with a message context. -/
inductive GoErr where
  | errorString (msg : String)
  | wrapped (ctxMsg : String) (inner : GoErr)
deriving DecidableEq, Repr

/-- The message of a Go error (`err.Error()`). -/
def GoErr.message : GoErr → String
  | .errorString m => m
  | .wrapped c e => c ++ e.message

/-- `ErrNoInterfaceSpecified` from `errors.go`. -/
def ErrNoInterfaceSpecified : GoErr := .errorString "no interface specified"

/-- `ErrNoPipeProvided` from `errors.go`. -/
def ErrNoPipeProvided : GoErr := .errorString "no FIFO pipe provided"

/-- An opened pipe handle (`io.WriteCloser`), opaque to the dispatcher. -/
structure Pipe where
  id : Nat
deriving DecidableEq, Repr

/-- `VersionInfo`: version and help strings shown in the version line. -/
structure VersionInfo where
  info : String
  help : String
deriving DecidableEq, Repr

/-- `CaptureInterface`: one capturable source. -/
structure CaptureInterface where
  value : String
  display : String
deriving DecidableEq, Repr

/-- `DLT`: a data-link type record. -/
structure DLT where
  number : Int
  name : String
  display : String
deriving DecidableEq, Repr

/-- The `ConfigOption` Go interface.  `ConfigStringOpt`, `ConfigBoolOpt`
and `ConfigIntegerOpt` are the three implementations the library knows;
`UnknownOpt` stands for any other implementation of the interface (the
`default:` case of the type switch in `App.Run`), carrying the Go type
name used in the panic message. -/
inductive ConfigOption where
  | ConfigStringOpt (call display : String) (required : Bool) (defaultValue : String)
  | ConfigBoolOpt (call display : String) (required : Bool) (defaultValue : Bool)
  | ConfigIntegerOpt (call display : String) (required : Bool) (defaultValue : Int)
  | UnknownOpt (typeName : String)
deriving DecidableEq, Repr

/-- `opt.call()`: the flag name of a configuration option. -/
def ConfigOption.call : ConfigOption → String
  | .ConfigStringOpt c _ _ _ => c
  | .ConfigBoolOpt c _ _ _ => c
  | .ConfigIntegerOpt c _ _ _ => c
  | .UnknownOpt _ => ""

/-- `opt.display()`: the human-readable description. -/
def ConfigOption.display : ConfigOption → String
  | .ConfigStringOpt _ d _ _ => d
  | .ConfigBoolOpt _ d _ _ => d
  | .ConfigIntegerOpt _ d _ _ => d
  | .UnknownOpt _ => ""

/-- `opt.isRequired()`: whether the option is mandatory. -/
def ConfigOption.isRequired : ConfigOption → Bool
  | .ConfigStringOpt _ _ r _ => r
  | .ConfigBoolOpt _ _ r _ => r
  | .ConfigIntegerOpt _ _ r _ => r
  | .UnknownOpt _ => false

/-- The type tag of an option in the wire format. -/
def ConfigOption.typeTag : ConfigOption → String
  | .ConfigStringOpt _ _ _ _ => "string"
  | .ConfigBoolOpt _ _ _ _ => "boolean"
  | .ConfigIntegerOpt _ _ _ _ => "integer"
  | .UnknownOpt _ => ""

/-- The default value of an option rendered as text. -/
def ConfigOption.defaultText : ConfigOption → String
  | .ConfigStringOpt _ _ _ v => v
  | .ConfigBoolOpt _ _ _ v => if v then "true" else "false"
  | .ConfigIntegerOpt _ _ _ v => toString v
  | .UnknownOpt _ => ""

/-- Modelled from the spec: the version line (free-text rendering of
`VersionInfo`; its `String()` method is in a repository file outside the
given sources). -/
def versionLine (v : VersionInfo) : String :=
  "extcap \x7bversion=" ++ v.info ++ "\x7d\x7bhelp=" ++ v.help ++ "\x7d"

/-- Modelled from the spec: `interface \x7bvalue=<id>\x7d\x7bdisplay=<name>\x7d`
(the `String()` method of `CaptureInterface` is in a repository file
outside the given sources). -/
def renderInterface (i : CaptureInterface) : String :=
  "interface \x7bvalue=" ++ i.value ++ "\x7d\x7bdisplay=" ++ i.display ++ "\x7d"

/-- Modelled from the spec: `dlt \x7bnumber=<n>\x7d\x7bname=<proto>\x7d\x7bdisplay=<name>\x7d`. -/
def renderDLT (d : DLT) : String :=
  "dlt \x7bnumber=" ++ toString d.number ++ "\x7d\x7bname=" ++ d.name ++
    "\x7d\x7bdisplay=" ++ d.display ++ "\x7d"

/-- Modelled from the spec: the `arg` line of a configuration option with
its assigned ordinal `n` (the `setNumber`/`String` methods are in a
repository file outside the given sources). -/
def renderConfigOption (o : ConfigOption) (n : Nat) : String :=
  "arg \x7bnumber=" ++ toString n ++ "\x7d\x7bcall=--" ++ o.call ++
    "\x7d\x7bdisplay=" ++ o.display ++ "\x7d\x7btype=" ++ o.typeTag ++
    "\x7d\x7bdefault=" ++ o.defaultText ++ "\x7d\x7brequired=" ++
    (if o.isRequired then "true" else "false") ++ "\x7d"

/-- A flag of the cli schema built by `App.Run` (string, bool or int flag
with name, usage text, required marker and default value). -/
inductive Flag where
  | stringFlag (name usage : String) (required : Bool) (value : String)
  | boolFlag (name usage : String) (required : Bool) (value : Bool)
  | intFlag (name usage : String) (required : Bool) (value : Int)
deriving DecidableEq, Repr

/-- The eight static protocol flags installed by `App.Run`. -/
def staticFlags : List Flag :=
  [ .stringFlag "extcap-version" "specify the Wireshark major and minor version" false ""
  , .boolFlag "extcap-interfaces" "list the extcap interfaces" false false
  , .boolFlag "extcap-dlts" "list the DLTs" false false
  , .stringFlag "extcap-interface" "specify the extcap interface <iface>" false ""
  , .boolFlag "extcap-config" "list the additional configuration for an interface" false false
  , .boolFlag "capture" "run the capture" false false
  , .stringFlag "extcap-capture-filter" "the capture filter <filter>" false ""
  , .stringFlag "fifo" "dump data to file or <fifo>" false "" ]

/-- One arm of the type switch in `App.Run`: the cli flag derived from a
configuration option, or the panic message for an unknown variant. -/
def optionFlag : ConfigOption → Except String Flag
  | .ConfigStringOpt c d r v => .ok (.stringFlag c d r v)
  | .ConfigBoolOpt c d r v => .ok (.boolFlag c d r v)
  | .ConfigIntegerOpt c d r v => .ok (.intFlag c d r v)
  | .UnknownOpt t => .error ("Unknown config option type: " ++ t)

/-- The loop in `App.Run` appending one derived flag per declared option,
stopping (panicking) at the first unsupported variant. -/
def appendOptionFlags : List Flag → List ConfigOption → Except String (List Flag)
  | acc, [] => .ok acc
  | acc, o :: rest =>
    match optionFlag o with
    | .error m => .error m
    | .ok f => appendOptionFlags (acc ++ [f]) rest

/-- The parsed command-line context (`*cli.Context`), the boundary to the
external flag-parsing library: which flags were set, each flag's parsed
value, and the names of all recognized flags (`ctx.FlagNames()`). -/
structure Ctx where
  isSet : String → Bool
  value : String → Value
  flagNames : List String

/-- `ctx.String(name)`: the string value of a flag (empty for non-string
flags, as in the cli library). -/
def Ctx.string (c : Ctx) (n : String) : String :=
  match c.value n with
  | .str s => s
  | _ => ""

/-- A callback / pipe-opener invocation observed during one dispatch. -/
inductive Event where
  | getInterfaces
  | getDLT (iface : String)
  | getConfigOptions (iface : String)
  | openPipe (path : String)
  | startCapture (iface : String) (pipe : Pipe) (filter : String)
      (opts : List (String × Value))
deriving DecidableEq, Repr

/-- How one dispatch ended: returned `nil`, returned an error, called
`os.Exit(0)`, showed the help text, or panicked (a nil function call). -/
inductive Outcome where
  | ok
  | error (e : GoErr)
  | exitSuccess
  | help
  | panicked (msg : String)
deriving DecidableEq, Repr

/-- The observable result of one dispatch: the callbacks invoked in order,
the lines printed to standard output in order, and the outcome. -/
structure RunResult where
  events : List Event
  output : List String
  outcome : Outcome
deriving DecidableEq, Repr

/-- The Go runtime's panic message for calling a nil function. -/
def nilFuncMsg : String :=
  "runtime error: invalid memory address or nil pointer dereference"

/-- The `App` structure: caller-supplied callbacks are `Option`s because
the corresponding Go function fields may be left nil. -/
structure App where
  usage : String := ""
  helpPage : String := ""
  version : VersionInfo := ⟨"", ""⟩
  usageExamples : List String := []
  getInterfaces : Option (Unit → Except GoErr (List CaptureInterface)) := none
  getDLT : Option (String → Except GoErr DLT) := none
  getConfigOptions : Option (String → Except GoErr (List ConfigOption)) := none
  getAllConfigOptions : Option (Unit → List ConfigOption) := none
  startCapture : Option (String → Pipe → String → List (String × Value) → Except GoErr Unit) := none
  openPipe : Option (String → Except GoErr Pipe) := none

/-- The default pipe opener `openPipe`: `os.OpenFile(name, O_WRONLY, ...)`
is external and appears as the oracle `fsOpen`; a failure is wrapped with
the context `unable to open pipe`. -/
def openPipe (fsOpen : String → Except GoErr Pipe) (name : String) :
    Except GoErr Pipe :=
  match fsOpen name with
  | .error e => .error (.wrapped "unable to open pipe: " e)
  | .ok p => .ok p

/-- The `--extcap-interfaces` branch of `mainAction`. -/
def runListInterfaces (a : App) : RunResult :=
  match a.getInterfaces with
  | none => ⟨[], [], .panicked nilFuncMsg⟩
  | some f =>
    match f () with
    | .error e => ⟨[.getInterfaces], [], .error e⟩
    | .ok ifaces =>
      ⟨[.getInterfaces], versionLine a.version :: ifaces.map renderInterface, .ok⟩

/-- The `--extcap-dlts` branch of `mainAction`. -/
def runListDLTs (a : App) (ctx : Ctx) : RunResult :=
  if !ctx.isSet "extcap-interface" then ⟨[], [], .error ErrNoInterfaceSpecified⟩
  else
    let iface := ctx.string "extcap-interface"
    match a.getDLT with
    | none => ⟨[], [], .panicked nilFuncMsg⟩
    | some f =>
      match f iface with
      | .error e => ⟨[.getDLT iface], [], .error e⟩
      | .ok dlt => ⟨[.getDLT iface], [renderDLT dlt], .ok⟩

/-- The loop in the `--extcap-config` branch: render each option after
assigning it the next ordinal, starting at `k`. -/
def renderOptionsFrom : Nat → List ConfigOption → List String
  | _, [] => []
  | k, o :: rest => renderConfigOption o k :: renderOptionsFrom (k + 1) rest

/-- The `--extcap-config` branch of `mainAction`: note the nil check on
`GetConfigOptions` comes before the interface check. -/
def runListConfig (a : App) (ctx : Ctx) : RunResult :=
  match a.getConfigOptions with
  | none => ⟨[], [], .ok⟩
  | some f =>
    if !ctx.isSet "extcap-interface" then ⟨[], [], .error ErrNoInterfaceSpecified⟩
    else
      let iface := ctx.string "extcap-interface"
      match f iface with
      | .error e => ⟨[.getConfigOptions iface], [], .error e⟩
      | .ok opts => ⟨[.getConfigOptions iface], renderOptionsFrom 0 opts, .ok⟩

/-- The options mapping built in the `--capture` branch: every recognized
flag except `extcap-interface`, `fifo` and `extcap-capture-filter`, keyed
by flag name with its parsed value. -/
def captureOpts (ctx : Ctx) : List (String × Value) :=
  (ctx.flagNames.filter fun n =>
    !(n == "extcap-interface" || n == "fifo" || n == "extcap-capture-filter")).map
    fun n => (n, ctx.value n)

/-- The `--capture` branch of `mainAction`. -/
def runCapture (a : App) (fsOpen : String → Except GoErr Pipe) (ctx : Ctx) :
    RunResult :=
  if !ctx.isSet "extcap-interface" then ⟨[], [], .error ErrNoInterfaceSpecified⟩
  else if !ctx.isSet "fifo" then ⟨[], [], .error ErrNoPipeProvided⟩
  else
    let iface := ctx.string "extcap-interface"
    let fifo := ctx.string "fifo"
    let filter := ctx.string "extcap-capture-filter"
    let opts := captureOpts ctx
    let openPipeFunc := a.openPipe.getD (openPipe fsOpen)
    match openPipeFunc fifo with
    | .error e => ⟨[.openPipe fifo], [], .error e⟩
    | .ok pipe =>
      match a.startCapture with
      | none => ⟨[.openPipe fifo], [], .panicked nilFuncMsg⟩
      | some f =>
        match f iface pipe filter opts with
        | .error e => ⟨[.openPipe fifo, .startCapture iface pipe filter opts], [], .error e⟩
        | .ok _ => ⟨[.openPipe fifo, .startCapture iface pipe filter opts], [], .ok⟩

/-- `mainAction`: the mode dispatcher, the if-chain of `application.go`. -/
def mainAction (a : App) (fsOpen : String → Except GoErr Pipe) (ctx : Ctx) :
    RunResult :=
  if ctx.isSet "extcap-interfaces" then runListInterfaces a
  else if ctx.isSet "extcap-dlts" then runListDLTs a ctx
  else if ctx.isSet "extcap-config" then runListConfig a ctx
  else if ctx.isSet "capture" then runCapture a fsOpen ctx
  else if ctx.isSet "extcap-capture-filter" then ⟨[], [], .exitSuccess⟩
  else ⟨[], [], .help⟩

/-- The six dispatch modes. -/
inductive Mode where
  | listInterfaces
  | listDLTs
  | listConfig
  | capture
  | filterValidation
  | help
deriving DecidableEq, Repr

/-- Which mode the flag set selects, in the dispatcher's priority order. -/
def selectMode (isSet : String → Bool) : Mode :=
  if isSet "extcap-interfaces" then .listInterfaces
  else if isSet "extcap-dlts" then .listDLTs
  else if isSet "extcap-config" then .listConfig
  else if isSet "capture" then .capture
  else if isSet "extcap-capture-filter" then .filterValidation
  else .help

/-- Run one given mode (the branch bodies of `mainAction`). -/
def runMode (a : App) (fsOpen : String → Except GoErr Pipe) (ctx : Ctx) :
    Mode → RunResult
  | .listInterfaces => runListInterfaces a
  | .listDLTs => runListDLTs a ctx
  | .listConfig => runListConfig a ctx
  | .capture => runCapture a fsOpen ctx
  | .filterValidation => ⟨[], [], .exitSuccess⟩
  | .help => ⟨[], [], .help⟩

/-- The version defaulting done at the start of `App.Run`. -/
def applyVersionDefaults (a : App) : App :=
  { a with version :=
      { info := if a.version.info = "" then "0.0.1" else a.version.info
      , help := if a.version.help = "" then "https://github.com/lion7/extcap" else a.version.help } }

/-- The flag schema built by `App.Run`: the static flags plus one derived
flag per option from `GetAllConfigOptions`; an unsupported variant aborts
(the Go code panics). -/
def buildFlags (a : App) : Except String (List Flag) :=
  match a.getAllConfigOptions with
  | none => .ok staticFlags
  | some g => appendOptionFlags staticFlags (g ())

/-- The result of `App.Run`: either the panic during schema construction,
or the dispatch result. -/
inductive RunOutcome where
  | schemaAbort (msg : String)
  | ran (result : RunResult)
deriving DecidableEq, Repr

/-- `App.Run`: default the version info, build the flag schema (aborting
on an unsupported option variant before anything else runs), parse the
arguments through the external cli library (the oracle `parse`) and
dispatch. -/
def App.runWith (a : App) (fsOpen : String → Except GoErr Pipe)
    (parse : List Flag → List String → Ctx) (arguments : List String) :
    RunOutcome :=
  let a' := applyVersionDefaults a
  match buildFlags a' with
  | .error msg => .schemaAbort msg
  | .ok flags => .ran (mainAction a' fsOpen (parse flags arguments))

/-! Concrete fixtures used by the witness theorems. -/

/-- A file-system oracle whose opens always succeed. -/
def wFs : String → Except GoErr Pipe := fun _ => .ok ⟨0⟩

/-- A file-system oracle whose opens always fail. -/
def wFsFail : String → Except GoErr Pipe :=
  fun p => .error (.errorString ("open " ++ p ++ ": no such file or directory"))

/-- The names of the eight static protocol flags. -/
def stdFlagNames : List String :=
  ["extcap-version", "extcap-interfaces", "extcap-dlts", "extcap-interface",
   "extcap-config", "capture", "extcap-capture-filter", "fifo"]

/-- A parsed context for `--extcap-interface=eth0 --fifo=/tmp/p
--extcap-capture-filter=tcp --verbose=true --capture` with one extra
boolean flag `verbose` in the schema. -/
def wCaptureCtx : Ctx :=
  { isSet := fun n =>
      n == "capture" || n == "extcap-interface" || n == "fifo" ||
        n == "extcap-capture-filter" || n == "verbose"
  , value := fun n =>
      if n == "extcap-interface" then .str "eth0"
      else if n == "fifo" then .str "/tmp/p"
      else if n == "extcap-capture-filter" then .str "tcp"
      else if n == "verbose" then .bool true
      else if n == "capture" then .bool true
      else if n == "extcap-version" then .str ""
      else .bool false
  , flagNames := stdFlagNames ++ ["verbose"] }

/-- An ambiguous invocation setting both `--extcap-dlts` and `--capture`. -/
def wMultiCtx : Ctx :=
  { isSet := fun n => n == "extcap-dlts" || n == "capture"
  , value := fun n => if n == "extcap-dlts" || n == "capture" then .bool true else .str ""
  , flagNames := stdFlagNames }

/-- C1: the dispatcher factors through `selectMode`, which reads only
which flags are set (never their values), and `selectMode` follows the
fixed priority order list-interfaces, list-DLTs, list-config, capture,
capture-filter-validation, help: the first set flag wins. -/
theorem c1_mode_selection_priority (a : App) (fs : String → Except GoErr Pipe)
    (ctx : Ctx) :
    mainAction a fs ctx = runMode a fs ctx (selectMode ctx.isSet) ∧
    (ctx.isSet "extcap-interfaces" = true →
      selectMode ctx.isSet = Mode.listInterfaces) ∧
    (ctx.isSet "extcap-interfaces" = false → ctx.isSet "extcap-dlts" = true →
      selectMode ctx.isSet = Mode.listDLTs) ∧
    (ctx.isSet "extcap-interfaces" = false → ctx.isSet "extcap-dlts" = false →
      ctx.isSet "extcap-config" = true → selectMode ctx.isSet = Mode.listConfig) ∧
    (ctx.isSet "extcap-interfaces" = false → ctx.isSet "extcap-dlts" = false →
      ctx.isSet "extcap-config" = false → ctx.isSet "capture" = true →
      selectMode ctx.isSet = Mode.capture) ∧
    (ctx.isSet "extcap-interfaces" = false → ctx.isSet "extcap-dlts" = false →
      ctx.isSet "extcap-config" = false → ctx.isSet "capture" = false →
      ctx.isSet "extcap-capture-filter" = true →
      selectMode ctx.isSet = Mode.filterValidation) ∧
    (ctx.isSet "extcap-interfaces" = false → ctx.isSet "extcap-dlts" = false →
      ctx.isSet "extcap-config" = false → ctx.isSet "capture" = false →
      ctx.isSet "extcap-capture-filter" = false →
      selectMode ctx.isSet = Mode.help) := by
  refine ⟨?_, ?_, ?_, ?_, ?_, ?_, ?_⟩
  · cases h1 : ctx.isSet "extcap-interfaces" <;>
      cases h2 : ctx.isSet "extcap-dlts" <;>
      cases h3 : ctx.isSet "extcap-config" <;>
      cases h4 : ctx.isSet "capture" <;>
      cases h5 : ctx.isSet "extcap-capture-filter" <;>
      simp [mainAction, selectMode, runMode, h1, h2, h3, h4, h5]
  · intro h1; simp [selectMode, h1]
  · intro h1 h2; simp [selectMode, h1, h2]
  · intro h1 h2 h3; simp [selectMode, h1, h2, h3]
  · intro h1 h2 h3 h4; simp [selectMode, h1, h2, h3, h4]
  · intro h1 h2 h3 h4 h5; simp [selectMode, h1, h2, h3, h4, h5]
  · intro h1 h2 h3 h4 h5; simp [selectMode, h1, h2, h3, h4, h5]

/-- C1 witness: an invocation setting both `--extcap-dlts` and
`--capture` deterministically resolves to the higher-priority list-DLTs
mode. -/
theorem c1_witness :
    mainAction {} wFs wMultiCtx = runMode {} wFs wMultiCtx (selectMode wMultiCtx.isSet) ∧
    selectMode wMultiCtx.isSet = Mode.listDLTs := by
  refine ⟨(c1_mode_selection_priority {} wFs wMultiCtx).1, ?_⟩
  exact (c1_mode_selection_priority {} wFs wMultiCtx).2.2.1 rfl rfl

/-- An app leaving every callback unset (in particular no per-interface
option callback). -/
def wBareApp : App := {}

/-- A parsed context with only `--extcap-config` set and no
`--extcap-interface`. -/
def wConfigNoIfaceCtx : Ctx :=
  { isSet := fun n => n == "extcap-config"
  , value := fun n => if n == "extcap-config" then .bool true else .str ""
  , flagNames := stdFlagNames }

/-- A parsed context with `--extcap-config` and `--extcap-interface=eth0`. -/
def wConfigIfaceCtx : Ctx :=
  { isSet := fun n => n == "extcap-config" || n == "extcap-interface"
  , value := fun n =>
      if n == "extcap-interface" then .str "eth0"
      else if n == "extcap-config" then .bool true
      else .str ""
  , flagNames := stdFlagNames }

/-- A parsed context with `--capture` and `--extcap-interface=eth0` but no
`--fifo`. -/
def wCaptureNoFifoCtx : Ctx :=
  { isSet := fun n => n == "capture" || n == "extcap-interface"
  , value := fun n =>
      if n == "extcap-interface" then .str "eth0"
      else if n == "capture" then .bool true
      else .str ""
  , flagNames := stdFlagNames }

/-- C2 counterexample: with `--extcap-config` set, no
`--extcap-interface`, and no per-interface option callback registered,
the dispatcher returns success — not `ErrNoInterfaceSpecified` — because
the nil check on the callback precedes the interface check. -/
theorem c2_counterexample_config_nil_callback :
    mainAction wBareApp wFs wConfigNoIfaceCtx = ⟨[], [], Outcome.ok⟩ ∧
    mainAction wBareApp wFs wConfigNoIfaceCtx ≠
      ⟨[], [], Outcome.error ErrNoInterfaceSpecified⟩ := by
  have h : mainAction wBareApp wFs wConfigNoIfaceCtx = ⟨[], [], Outcome.ok⟩ := rfl
  refine ⟨h, ?_⟩
  rw [h]
  simp [ErrNoInterfaceSpecified]

/-- C2 (amended): list-DLTs and capture invoked without
`--extcap-interface` return `ErrNoInterfaceSpecified` with no callback
invoked; list-config does so provided a per-interface option callback is
registered, and returns success immediately (still invoking no callback)
when none is. -/
theorem c2_amended_missing_iface (a : App) (fs : String → Except GoErr Pipe)
    (ctx : Ctx)
    (hIf : ctx.isSet "extcap-interfaces" = false)
    (hNo : ctx.isSet "extcap-interface" = false) :
    (ctx.isSet "extcap-dlts" = true →
      mainAction a fs ctx = ⟨[], [], .error ErrNoInterfaceSpecified⟩) ∧
    (ctx.isSet "extcap-dlts" = false → ctx.isSet "extcap-config" = true →
      (∀ g, a.getConfigOptions = some g →
        mainAction a fs ctx = ⟨[], [], .error ErrNoInterfaceSpecified⟩) ∧
      (a.getConfigOptions = none → mainAction a fs ctx = ⟨[], [], .ok⟩)) ∧
    (ctx.isSet "extcap-dlts" = false → ctx.isSet "extcap-config" = false →
      ctx.isSet "capture" = true →
      mainAction a fs ctx = ⟨[], [], .error ErrNoInterfaceSpecified⟩) := by
  refine ⟨?_, ?_, ?_⟩
  · intro h2
    simp [mainAction, runListDLTs, hIf, hNo, h2]
  · intro h2 h3
    constructor
    · intro g hg
      simp [mainAction, runListConfig, hIf, hNo, h2, h3, hg]
    · intro hg
      simp [mainAction, runListConfig, hIf, hNo, h2, h3, hg]
  · intro h2 h3 h4
    simp [mainAction, runCapture, hIf, hNo, h2, h3, h4]

/-- A parsed context with only `--extcap-dlts` set. -/
def wDltsNoIfaceCtx : Ctx :=
  { isSet := fun n => n == "extcap-dlts"
  , value := fun n => if n == "extcap-dlts" then .bool true else .str ""
  , flagNames := stdFlagNames }

/-- A per-interface option callback returning one boolean option. -/
def wConfigCallback : String → Except GoErr (List ConfigOption) :=
  fun _ => .ok [.ConfigBoolOpt "verbose" "verbose output" false false]

/-- An app registering only the per-interface option callback. -/
def wConfigApp : App := { getConfigOptions := some wConfigCallback }

/-- C2 witness: the amended statement at concrete inputs — list-DLTs
without an interface errors, list-config with a registered callback and
no interface errors, list-config with no callback succeeds, and capture
without an interface errors. -/
theorem c2_witness :
    mainAction wBareApp wFs wDltsNoIfaceCtx =
      ⟨[], [], .error ErrNoInterfaceSpecified⟩ ∧
    mainAction wConfigApp wFs wConfigNoIfaceCtx =
      ⟨[], [], .error ErrNoInterfaceSpecified⟩ ∧
    mainAction wBareApp wFs wConfigNoIfaceCtx = ⟨[], [], .ok⟩ ∧
    mainAction wBareApp wFsFail
      { isSet := fun n => n == "capture"
      , value := fun n => if n == "capture" then .bool true else .str ""
      , flagNames := stdFlagNames } =
      ⟨[], [], .error ErrNoInterfaceSpecified⟩ := by
  refine ⟨?_, ?_, ?_, ?_⟩
  · exact (c2_amended_missing_iface wBareApp wFs wDltsNoIfaceCtx rfl rfl).1 rfl
  · exact ((c2_amended_missing_iface wConfigApp wFs wConfigNoIfaceCtx rfl rfl).2.1
      rfl rfl).1 wConfigCallback rfl
  · exact ((c2_amended_missing_iface wBareApp wFs wConfigNoIfaceCtx rfl rfl).2.1
      rfl rfl).2 rfl
  · exact (c2_amended_missing_iface wBareApp wFsFail _ rfl rfl).2.2 rfl rfl rfl

/-- C3: a capture invocation with `--extcap-interface` set but `--fifo`
missing returns `ErrNoPipeProvided`, and neither the pipe opener nor the
capture callback (nor any other callback) is invoked. -/
theorem c3_capture_missing_fifo (a : App) (fs : String → Except GoErr Pipe)
    (ctx : Ctx)
    (h1 : ctx.isSet "extcap-interfaces" = false)
    (h2 : ctx.isSet "extcap-dlts" = false)
    (h3 : ctx.isSet "extcap-config" = false)
    (h4 : ctx.isSet "capture" = true)
    (h5 : ctx.isSet "extcap-interface" = true)
    (h6 : ctx.isSet "fifo" = false) :
    mainAction a fs ctx = ⟨[], [], .error ErrNoPipeProvided⟩ ∧
    (mainAction a fs ctx).events = [] := by
  have h : mainAction a fs ctx = ⟨[], [], .error ErrNoPipeProvided⟩ := by
    simp [mainAction, runCapture, h1, h2, h3, h4, h5, h6]
  exact ⟨h, by rw [h]⟩

/-- C3 witness: the concrete invocation `--capture
--extcap-interface=eth0` with no `--fifo`. -/
theorem c3_witness :
    mainAction wBareApp wFs wCaptureNoFifoCtx =
      ⟨[], [], .error ErrNoPipeProvided⟩ ∧
    (mainAction wBareApp wFs wCaptureNoFifoCtx).events = [] :=
  c3_capture_missing_fifo wBareApp wFs wCaptureNoFifoCtx rfl rfl rfl rfl rfl rfl

/-- C6: with `--extcap-config` set and no per-interface option callback
registered, the dispatcher succeeds trivially: success outcome, zero
output lines, no callback invoked. -/
theorem c6_config_without_callback (a : App) (fs : String → Except GoErr Pipe)
    (ctx : Ctx)
    (h1 : ctx.isSet "extcap-interfaces" = false)
    (h2 : ctx.isSet "extcap-dlts" = false)
    (h3 : ctx.isSet "extcap-config" = true)
    (hNil : a.getConfigOptions = none) :
    mainAction a fs ctx = ⟨[], [], .ok⟩ := by
  simp [mainAction, runListConfig, h1, h2, h3, hNil]

/-- C6 witness: `--extcap-config --extcap-interface=eth0` against an app
with no per-interface option callback. -/
theorem c6_witness :
    mainAction wBareApp wFs wConfigIfaceCtx = ⟨[], [], .ok⟩ :=
  c6_config_without_callback wBareApp wFs wConfigIfaceCtx rfl rfl rfl rfl

/-- A capture callback that always succeeds. -/
def wCapCb : String → Pipe → String → List (String × Value) → Except GoErr Unit :=
  fun _ _ _ _ => .ok ()

/-- An app registering only the capture callback, with the default pipe
opener. -/
def wCaptureApp : App := { startCapture := some wCapCb }

/-- C4: in capture mode the callback receives the options mapping built
by `captureOpts`, and that mapping contains exactly the recognized flags
other than `extcap-interface`, `fifo` and `extcap-capture-filter`, each
keyed by flag name with its parsed value. -/
theorem c4_capture_options_map (a : App) (fs : String → Except GoErr Pipe)
    (ctx : Ctx)
    (g : String → Pipe → String → List (String × Value) → Except GoErr Unit)
    (p : Pipe)
    (h1 : ctx.isSet "extcap-interfaces" = false)
    (h2 : ctx.isSet "extcap-dlts" = false)
    (h3 : ctx.isSet "extcap-config" = false)
    (h4 : ctx.isSet "capture" = true)
    (h5 : ctx.isSet "extcap-interface" = true)
    (h6 : ctx.isSet "fifo" = true)
    (hSC : a.startCapture = some g)
    (hOpen : (a.openPipe.getD (openPipe fs)) (ctx.string "fifo") = .ok p) :
    Event.startCapture (ctx.string "extcap-interface") p
        (ctx.string "extcap-capture-filter") (captureOpts ctx)
      ∈ (mainAction a fs ctx).events ∧
    (∀ name v, (name, v) ∈ captureOpts ctx ↔
      name ∈ ctx.flagNames ∧ name ≠ "extcap-interface" ∧ name ≠ "fifo" ∧
        name ≠ "extcap-capture-filter" ∧ v = ctx.value name) := by
  constructor
  · have hm : mainAction a fs ctx = runCapture a fs ctx := by
      simp [mainAction, h1, h2, h3, h4]
    rw [hm]
    unfold runCapture
    rw [h5, h6]
    simp only [Bool.not_true, Bool.false_eq_true, if_false]
    rw [hOpen, hSC]
    cases hg : g (ctx.string "extcap-interface") p
        (ctx.string "extcap-capture-filter") (captureOpts ctx) <;>
      simp [hg]
  · intro name v
    simp only [captureOpts, List.mem_map, List.mem_filter, Bool.not_eq_true',
      Bool.or_eq_false_iff, beq_eq_false_iff_ne, ne_eq, Prod.mk.injEq]
    constructor
    · rintro ⟨n, ⟨hmem, ⟨hn1, hn2⟩, hn3⟩, rfl, rfl⟩
      exact ⟨hmem, hn1, hn2, hn3, rfl⟩
    · rintro ⟨hmem, hn1, hn2, hn3, rfl⟩
      exact ⟨name, ⟨hmem, ⟨hn1, hn2⟩, hn3⟩, rfl, rfl⟩

/-- C4 witness: `--extcap-interface=eth0 --fifo=/tmp/p
--extcap-capture-filter=tcp --verbose=true --capture` — the callback
receives the mapping, which contains `verbose=true` and none of the three
excluded keys. -/
theorem c4_witness :
    Event.startCapture "eth0" ⟨0⟩ "tcp" (captureOpts wCaptureCtx)
      ∈ (mainAction wCaptureApp wFs wCaptureCtx).events ∧
    ("verbose", Value.bool true) ∈ captureOpts wCaptureCtx ∧
    (captureOpts wCaptureCtx).all (fun nv =>
      nv.1 != "extcap-interface" && nv.1 != "fifo" &&
        nv.1 != "extcap-capture-filter") = true := by
  refine ⟨?_, by decide, by decide⟩
  exact (c4_capture_options_map wCaptureApp wFs wCaptureCtx wCapCb ⟨0⟩
    rfl rfl rfl rfl rfl rfl rfl rfl).1

/-- The rendered option list has one line per option. -/
theorem renderOptionsFrom_length (opts : List ConfigOption) :
    ∀ k, (renderOptionsFrom k opts).length = opts.length := by
  induction opts with
  | nil => intro k; rfl
  | cons o rest ih => intro k; simp [renderOptionsFrom, ih]

/-- The line at index `i` of the rendered option list starting at ordinal
`k` renders the option at index `i` with ordinal `k + i`. -/
theorem renderOptionsFrom_getElem (opts : List ConfigOption) :
    ∀ k i o, opts[i]? = some o →
      (renderOptionsFrom k opts)[i]? = some (renderConfigOption o (k + i)) := by
  induction opts with
  | nil => intro k i o h; simp at h
  | cons a rest ih =>
    intro k i o h
    cases i with
    | zero =>
      simp only [List.getElem?_cons_zero, Option.some.injEq] at h
      subst h
      simp [renderOptionsFrom]
    | succ n =>
      simp only [List.getElem?_cons_succ] at h
      have := ih (k + 1) n o h
      simp only [renderOptionsFrom, List.getElem?_cons_succ]
      rw [show k + (n + 1) = k + 1 + n by omega]
      exact this

/-- C5: in list-config mode with a callback returning `opts`, the
dispatcher prints one line per option, and the line at position `i`
renders the option returned at position `i` with ordinal `i` (the first
option gets number 0). -/
theorem c5_config_ordinal_order (a : App) (fs : String → Except GoErr Pipe)
    (ctx : Ctx) (g : String → Except GoErr (List ConfigOption))
    (opts : List ConfigOption)
    (h1 : ctx.isSet "extcap-interfaces" = false)
    (h2 : ctx.isSet "extcap-dlts" = false)
    (h3 : ctx.isSet "extcap-config" = true)
    (h4 : a.getConfigOptions = some g)
    (h5 : ctx.isSet "extcap-interface" = true)
    (h6 : g (ctx.string "extcap-interface") = .ok opts) :
    (mainAction a fs ctx).output.length = opts.length ∧
    (∀ i o, opts[i]? = some o →
      (mainAction a fs ctx).output[i]? = some (renderConfigOption o i)) ∧
    (mainAction a fs ctx).outcome = .ok := by
  have hm : mainAction a fs ctx =
      ⟨[.getConfigOptions (ctx.string "extcap-interface")],
        renderOptionsFrom 0 opts, .ok⟩ := by
    simp [mainAction, runListConfig, h1, h2, h3, h4, h5, h6]
  rw [hm]
  refine ⟨renderOptionsFrom_length opts 0, ?_, rfl⟩
  intro i o h
  simpa using renderOptionsFrom_getElem opts 0 i o h

/-- C5 witness: one registered boolean option gets ordinal 0 and exactly
one output line. -/
theorem c5_witness :
    (mainAction wConfigApp wFs wConfigIfaceCtx).output.length = 1 ∧
    (mainAction wConfigApp wFs wConfigIfaceCtx).output[0]? =
      some (renderConfigOption
        (.ConfigBoolOpt "verbose" "verbose output" false false) 0) := by
  refine ⟨?_, ?_⟩
  · exact (c5_config_ordinal_order wConfigApp wFs wConfigIfaceCtx wConfigCallback
      [.ConfigBoolOpt "verbose" "verbose output" false false]
      rfl rfl rfl rfl rfl rfl).1
  · exact (c5_config_ordinal_order wConfigApp wFs wConfigIfaceCtx wConfigCallback
      [.ConfigBoolOpt "verbose" "verbose output" false false]
      rfl rfl rfl rfl rfl rfl).2.1 0 _ rfl

/-- C7: in capture mode with the default pipe opener, a failing open is
wrapped with the context `unable to open pipe` before propagation, the
mode terminates with that error, and the capture callback is never
invoked. -/
theorem c7_pipe_open_failure (a : App) (fs : String → Except GoErr Pipe)
    (ctx : Ctx) (e : GoErr)
    (h1 : ctx.isSet "extcap-interfaces" = false)
    (h2 : ctx.isSet "extcap-dlts" = false)
    (h3 : ctx.isSet "extcap-config" = false)
    (h4 : ctx.isSet "capture" = true)
    (h5 : ctx.isSet "extcap-interface" = true)
    (h6 : ctx.isSet "fifo" = true)
    (hDef : a.openPipe = none)
    (hFs : fs (ctx.string "fifo") = .error e) :
    mainAction a fs ctx =
      ⟨[Event.openPipe (ctx.string "fifo")], [],
        .error (GoErr.wrapped "unable to open pipe: " e)⟩ ∧
    (GoErr.wrapped "unable to open pipe: " e).message =
      "unable to open pipe: " ++ e.message ∧
    (∀ i p f o, Event.startCapture i p f o ∉ (mainAction a fs ctx).events) := by
  have hm : mainAction a fs ctx =
      ⟨[Event.openPipe (ctx.string "fifo")], [],
        .error (GoErr.wrapped "unable to open pipe: " e)⟩ := by
    simp [mainAction, runCapture, openPipe, h1, h2, h3, h4, h5, h6, hDef, hFs]
  refine ⟨hm, rfl, ?_⟩
  intro i p f o
  rw [hm]
  simp

/-- A parsed context for `--capture --extcap-interface=eth0
--fifo=/no/such/fifo`. -/
def wCaptureBadFifoCtx : Ctx :=
  { isSet := fun n => n == "capture" || n == "extcap-interface" || n == "fifo"
  , value := fun n =>
      if n == "extcap-interface" then .str "eth0"
      else if n == "fifo" then .str "/no/such/fifo"
      else if n == "capture" then .bool true
      else .str ""
  , flagNames := stdFlagNames }

/-- C7 witness: opening `/no/such/fifo` fails; the returned error carries
the `unable to open pipe` context and the capture callback never runs. -/
theorem c7_witness :
    mainAction wCaptureApp wFsFail wCaptureBadFifoCtx =
      ⟨[Event.openPipe "/no/such/fifo"], [],
        .error (GoErr.wrapped "unable to open pipe: "
          (.errorString "open /no/such/fifo: no such file or directory"))⟩ ∧
    Event.startCapture "eth0" ⟨0⟩ "" []
      ∉ (mainAction wCaptureApp wFsFail wCaptureBadFifoCtx).events := by
  refine ⟨?_, ?_⟩
  · exact (c7_pipe_open_failure wCaptureApp wFsFail wCaptureBadFifoCtx
      (.errorString "open /no/such/fifo: no such file or directory")
      rfl rfl rfl rfl rfl rfl rfl rfl).1
  · exact (c7_pipe_open_failure wCaptureApp wFsFail wCaptureBadFifoCtx
      (.errorString "open /no/such/fifo: no such file or directory")
      rfl rfl rfl rfl rfl rfl rfl rfl).2.2 "eth0" ⟨0⟩ "" []

/-- The flag-appending loop aborts whenever an unsupported option variant
occurs anywhere in the declared options, for any accumulator. -/
theorem appendOptionFlags_aborts (opts : List ConfigOption) :
    ∀ (acc : List Flag) (t : String), ConfigOption.UnknownOpt t ∈ opts →
      ∃ msg, appendOptionFlags acc opts = .error msg := by
  induction opts with
  | nil => intro acc t h; simp at h
  | cons o rest ih =>
    intro acc t h
    rcases List.mem_cons.mp h with heq | hmem
    · rw [← heq]
      exact ⟨"Unknown config option type: " ++ t, rfl⟩
    · cases o with
      | UnknownOpt s => exact ⟨"Unknown config option type: " ++ s, rfl⟩
      | ConfigStringOpt c d r v =>
        obtain ⟨m, hm⟩ := ih (acc ++ [.stringFlag c d r v]) t hmem
        exact ⟨m, hm⟩
      | ConfigBoolOpt c d r v =>
        obtain ⟨m, hm⟩ := ih (acc ++ [.boolFlag c d r v]) t hmem
        exact ⟨m, hm⟩
      | ConfigIntegerOpt c d r v =>
        obtain ⟨m, hm⟩ := ih (acc ++ [.intFlag c d r v]) t hmem
        exact ⟨m, hm⟩

/-- C8: if the global-options callback returns an option that is not one
of the string, boolean or integer variants, `App.Run` aborts during
flag-schema construction, before any protocol mode executes, whatever the
command line. -/
theorem c8_unknown_variant_aborts (a : App) (g : Unit → List ConfigOption)
    (t : String)
    (hAll : a.getAllConfigOptions = some g)
    (hBad : ConfigOption.UnknownOpt t ∈ g ()) :
    ∀ (fs : String → Except GoErr Pipe)
      (parse : List Flag → List String → Ctx) (args : List String),
      ∃ msg, a.runWith fs parse args = .schemaAbort msg := by
  intro fs parse args
  obtain ⟨m, hm⟩ := appendOptionFlags_aborts (g ()) staticFlags t hBad
  refine ⟨m, ?_⟩
  simp [App.runWith, buildFlags, applyVersionDefaults, hAll, hm]

/-- An app whose global-options callback returns a supported option
followed by an unsupported variant. -/
def wBadOptsApp : App :=
  { getAllConfigOptions := some fun _ =>
      [.ConfigStringOpt "remote-host" "the remote host" true "",
       .UnknownOpt "*extcap.ConfigSelectorOpt"] }

/-- C8 witness: schema construction aborts on the unsupported variant
with the type-switch panic message, for a concrete command line. -/
theorem c8_witness :
    wBadOptsApp.runWith wFs (fun _ _ => wConfigNoIfaceCtx) ["--extcap-config"] =
      .schemaAbort "Unknown config option type: *extcap.ConfigSelectorOpt" ∧
    ∃ msg, wBadOptsApp.runWith wFs (fun _ _ => wConfigNoIfaceCtx)
      ["--extcap-config"] = .schemaAbort msg :=
  ⟨rfl, c8_unknown_variant_aborts wBadOptsApp
    (fun _ => [.ConfigStringOpt "remote-host" "the remote host" true "",
               .UnknownOpt "*extcap.ConfigSelectorOpt"])
    "*extcap.ConfigSelectorOpt" rfl (by simp) wFs (fun _ _ => wConfigNoIfaceCtx)
    ["--extcap-config"]⟩

/-- C9: in list-interfaces mode, on success the dispatcher prints the
version line followed by one rendered line per interface in callback
order (the line at output position `i + 1` renders interface `i`); on
callback failure the error is surfaced unmodified and nothing is
printed. -/
theorem c9_list_interfaces_output (a : App) (fs : String → Except GoErr Pipe)
    (ctx : Ctx) (f : Unit → Except GoErr (List CaptureInterface))
    (h1 : ctx.isSet "extcap-interfaces" = true)
    (hF : a.getInterfaces = some f) :
    (∀ ifaces, f () = .ok ifaces →
      mainAction a fs ctx =
        ⟨[.getInterfaces],
          versionLine a.version :: ifaces.map renderInterface, .ok⟩ ∧
      (∀ i iface, ifaces[i]? = some iface →
        (mainAction a fs ctx).output[i + 1]? = some (renderInterface iface))) ∧
    (∀ e, f () = .error e →
      mainAction a fs ctx = ⟨[.getInterfaces], [], .error e⟩) := by
  constructor
  · intro ifaces hok
    have hm : mainAction a fs ctx =
        ⟨[.getInterfaces],
          versionLine a.version :: ifaces.map renderInterface, .ok⟩ := by
      simp [mainAction, runListInterfaces, h1, hF, hok]
    refine ⟨hm, ?_⟩
    intro i iface hi
    rw [hm]
    simp [List.getElem?_map, hi]
  · intro e herr
    simp [mainAction, runListInterfaces, h1, hF, herr]

/-- An app enumerating the single interface eth0. -/
def wIfacesApp : App :=
  { version := ⟨"1.0", "http://example.com"⟩
  , getInterfaces := some fun _ => .ok [⟨"eth0", "Ethernet"⟩] }

/-- A parsed context with only `--extcap-interfaces` set. -/
def wIfacesCtx : Ctx :=
  { isSet := fun n => n == "extcap-interfaces"
  , value := fun n => if n == "extcap-interfaces" then .bool true else .str ""
  , flagNames := stdFlagNames }

/-- C9 witness: for the single interface eth0/Ethernet the output is the
version line then exactly the rendered interface line. -/
theorem c9_witness :
    mainAction wIfacesApp wFs wIfacesCtx =
      ⟨[.getInterfaces],
        [versionLine wIfacesApp.version, renderInterface ⟨"eth0", "Ethernet"⟩],
        .ok⟩ ∧
    renderInterface ⟨"eth0", "Ethernet"⟩ =
      "interface \x7bvalue=eth0\x7d\x7bdisplay=Ethernet\x7d" := by
  refine ⟨?_, rfl⟩
  exact ((c9_list_interfaces_output wIfacesApp wFs wIfacesCtx
    (fun _ => .ok [⟨"eth0", "Ethernet"⟩]) rfl rfl).1 [⟨"eth0", "Ethernet"⟩] rfl).1

/-- C10 (amended): the required callbacks GetInterfaces, GetDLT and
StartCapture are invoked without a nil check, so leaving one unset makes
the dispatcher panic instead of returning a typed error; but besides the
two option callbacks, OpenPipe is also nil-checked — an unset OpenPipe is
replaced by the default opener, never called nil. -/
theorem c10_amended_nil_callbacks (a : App) (fs : String → Except GoErr Pipe)
    (ctx : Ctx) :
    (ctx.isSet "extcap-interfaces" = true → a.getInterfaces = none →
      mainAction a fs ctx = ⟨[], [], .panicked nilFuncMsg⟩) ∧
    (ctx.isSet "extcap-interfaces" = false → ctx.isSet "extcap-dlts" = true →
      ctx.isSet "extcap-interface" = true → a.getDLT = none →
      mainAction a fs ctx = ⟨[], [], .panicked nilFuncMsg⟩) ∧
    (ctx.isSet "extcap-interfaces" = false → ctx.isSet "extcap-dlts" = false →
      ctx.isSet "extcap-config" = false → ctx.isSet "capture" = true →
      ctx.isSet "extcap-interface" = true → ctx.isSet "fifo" = true →
      a.startCapture = none →
      ∀ p, (a.openPipe.getD (openPipe fs)) (ctx.string "fifo") = .ok p →
        mainAction a fs ctx =
          ⟨[Event.openPipe (ctx.string "fifo")], [], .panicked nilFuncMsg⟩) ∧
    (a.openPipe = none →
      mainAction a fs ctx =
        mainAction { a with openPipe := some (openPipe fs) } fs ctx) := by
  refine ⟨?_, ?_, ?_, ?_⟩
  · intro h1 hNil
    simp [mainAction, runListInterfaces, h1, hNil]
  · intro h1 h2 h5 hNil
    simp [mainAction, runListDLTs, h1, h2, h5, hNil]
  · intro h1 h2 h3 h4 h5 h6 hNil p hOpen
    have hm : mainAction a fs ctx = runCapture a fs ctx := by
      simp [mainAction, h1, h2, h3, h4]
    rw [hm]
    unfold runCapture
    rw [h5, h6]
    simp only [Bool.not_true, Bool.false_eq_true, if_false]
    rw [hOpen, hNil]
  · intro hOp
    cases h1 : ctx.isSet "extcap-interfaces" <;>
      cases h2 : ctx.isSet "extcap-dlts" <;>
      cases h3 : ctx.isSet "extcap-config" <;>
      cases h4 : ctx.isSet "capture" <;>
      simp [mainAction, runListInterfaces, runListDLTs, runListConfig,
        runCapture, h1, h2, h3, h4, hOp]

/-- C10 counterexample: `OpenPipe` is also nil-checked by the dispatcher —
a capture invocation with `OpenPipe` left unset does not panic; the
default opener is substituted and the run succeeds. -/
theorem c10_counterexample_openpipe_nil_checked :
    (mainAction wCaptureApp wFs wCaptureCtx).outcome = Outcome.ok ∧
    (mainAction wCaptureApp wFs wCaptureCtx).outcome ≠
      Outcome.panicked nilFuncMsg := by
  have h : (mainAction wCaptureApp wFs wCaptureCtx).outcome = Outcome.ok := rfl
  refine ⟨h, ?_⟩
  rw [h]
  simp

/-- A parsed context with `--extcap-dlts --extcap-interface=eth0`. -/
def wDltsIfaceCtx : Ctx :=
  { isSet := fun n => n == "extcap-dlts" || n == "extcap-interface"
  , value := fun n =>
      if n == "extcap-interface" then .str "eth0"
      else if n == "extcap-dlts" then .bool true
      else .str ""
  , flagNames := stdFlagNames }

/-- C10 witness: each required callback left unset panics in its mode,
and an unset OpenPipe behaves exactly as the default opener. -/
theorem c10_witness :
    mainAction wBareApp wFs wIfacesCtx = ⟨[], [], .panicked nilFuncMsg⟩ ∧
    mainAction wBareApp wFs wDltsIfaceCtx = ⟨[], [], .panicked nilFuncMsg⟩ ∧
    mainAction wBareApp wFs wCaptureCtx =
      ⟨[Event.openPipe "/tmp/p"], [], .panicked nilFuncMsg⟩ ∧
    mainAction wCaptureApp wFs wCaptureCtx =
      mainAction { wCaptureApp with openPipe := some (openPipe wFs) } wFs
        wCaptureCtx := by
  refine ⟨?_, ?_, ?_, ?_⟩
  · exact (c10_amended_nil_callbacks wBareApp wFs wIfacesCtx).1 rfl rfl
  · exact (c10_amended_nil_callbacks wBareApp wFs wDltsIfaceCtx).2.1 rfl rfl rfl rfl
  · exact (c10_amended_nil_callbacks wBareApp wFs wCaptureCtx).2.2.1
      rfl rfl rfl rfl rfl rfl rfl ⟨0⟩ rfl
  · exact (c10_amended_nil_callbacks wCaptureApp wFs wCaptureCtx).2.2.2 rfl

end Extcap
